import Mathlib

/-!
Verification of the SillyTavern user-authentication router
(`src/endpoints/users-public.js`): login, two-step password recovery,
and the discreet user listing, together with the rate-limiter,
recovery-code cache and credential-store state they manipulate.

The route handlers are shallowly embedded as pure functions over an
explicit `ServerState`.  Time is measured in milliseconds.  Helpers that
live outside the embedded file (`toKey`, `getPasswordHash`,
`getPasswordSalt`, the `Cache` class, the `RateLimiterMemory` class and
`crypto.randomInt`) are modelled from their documented contracts, as
noted on each definition.
-/

/-- An identity record as stored in the credential store
(`handle`, `name`, `password` hash, `salt`, `enabled`, `uid`,
`created`). An empty `password` string means "no password required",
mirroring JavaScript falsiness of the empty string. -/
structure User where
  handle : String
  name : String
  password : String
  salt : String
  enabled : Bool
  uid : Nat
  created : Option Nat
deriving DecidableEq, Repr

/-- State of one rate-limiter key: points consumed in the current
window and the instant (ms) at which the window expires. -/
structure LimiterEntry where
  points : Nat
  expiresAt : Nat
deriving DecidableEq, Repr

/-- One recovery-code cache entry: the stored code and its expiry
instant (ms). -/
structure CacheEntry where
  value : String
  expiresAt : Nat
deriving DecidableEq, Repr

/-- Association-list lookup by string key. -/
def lookupA {α : Type} (tbl : List (String × α)) (k : String) : Option α :=
  match tbl with
  | [] => none
  | (k2, v) :: rest => if k2 = k then some v else lookupA rest k

/-- Association-list upsert by string key. -/
def setA {α : Type} (tbl : List (String × α)) (k : String) (v : α) :
    List (String × α) :=
  match tbl with
  | [] => [(k, v)]
  | (k2, v2) :: rest =>
    if k2 = k then (k, v) :: rest else (k2, v2) :: setA rest k v

/-- Association-list deletion by string key. -/
def removeA {α : Type} (tbl : List (String × α)) (k : String) :
    List (String × α) :=
  match tbl with
  | [] => []
  | (k2, v2) :: rest =>
    if k2 = k then removeA rest k else (k2, v2) :: removeA rest k

/-- Modelled from the spec: the storage key prefix for user records
(`KEY_PREFIX` in `src/users.js`, which is not part of the analysed
sources); the credential store is a durable mapping from identity
handle to record, keyed under a fixed prefix. -/
def keyHead : String := "user:"

/-- Modelled from the spec: `toKey` from `src/users.js` (not part of
the analysed sources) maps a handle to its storage key by prefixing
`keyHead`. -/
def toKey (handle : String) : String := keyHead ++ handle

/-- Modelled from the spec: `getPasswordHash` from `src/users.js` (not
part of the analysed sources) is a deterministic salted one-way hash;
we model it as an injective-by-construction tagged concatenation, which
is deterministic and always non-empty. -/
def getPasswordHash (password salt : String) : String :=
  ("hash:" ++ salt) ++ (":" ++ password)

/-- Modelled from the spec: `getPasswordSalt` from `src/users.js` (not
part of the analysed sources) draws a fresh random salt; we model it as
a function of a random seed, always non-empty. -/
def getPasswordSalt (seed : Nat) : String := "salt:" ++ toString seed

/-- Models `crypto.randomInt(lo, hi)` from `node:crypto`, which returns
a cryptographically random integer `n` with `lo ≤ n < hi` (the upper
bound is exclusive per the Node.js documentation), as a function of the
underlying random draw `r`: uniform because `fun r => lo + r % (hi - lo)`
restricted to `r < hi - lo` is a bijection onto the range. -/
def randomInt (lo hi : Nat) (r : Nat) : Nat := lo + r % (hi - lo)

/-- Budget of the login limiter (`points: 5`). -/
def loginPoints : Nat := 5

/-- Window of the login limiter in ms (`duration: 60` seconds). -/
def loginDuration : Nat := 60 * 1000

/-- Budget of the recovery limiter (`points: 5`). -/
def recoverPoints : Nat := 5

/-- Window of the recovery limiter in ms (`duration: 300` seconds). -/
def recoverDuration : Nat := 300 * 1000

/-- TTL of the recovery-code cache in ms (`new Cache(5 * 60 * 1000)`). -/
def mfaTtl : Nat := 5 * 60 * 1000

/-- Modelled from the spec (§4.1) and the documented behaviour of
`RateLimiterMemory.consume` from the `rate-limiter-flexible` library:
charge one point against `key`; a missing or expired entry starts a
fresh window with 1 point; otherwise the entry is incremented, and the
call fails (rejects with `RateLimiterRes`) exactly when the consumed
points exceed the budget — without rolling back the increment.
Returns the updated table and whether the consumption succeeded. -/
def consume (tbl : List (String × LimiterEntry)) (budget duration : Nat)
    (key : String) (now : Nat) : List (String × LimiterEntry) × Bool :=
  match lookupA tbl key with
  | none => (setA tbl key ⟨1, now + duration⟩, decide (1 ≤ budget))
  | some e =>
    if now < e.expiresAt then
      (setA tbl key ⟨e.points + 1, e.expiresAt⟩, decide (e.points + 1 ≤ budget))
    else
      (setA tbl key ⟨1, now + duration⟩, decide (1 ≤ budget))

/-- Modelled from the spec (§4.2): `Cache.set` from `src/util.js` (not
part of the analysed sources) stores `v` for `k` expiring at
`now + mfaTtl`, overwriting any existing entry. -/
def cacheSet (tbl : List (String × CacheEntry)) (k v : String) (now : Nat) :
    List (String × CacheEntry) :=
  setA tbl k ⟨v, now + mfaTtl⟩

/-- Modelled from the spec (§4.2): `Cache.get` from `src/util.js` (not
part of the analysed sources) returns the stored value if present and
unexpired (live strictly before its expiry instant), lazily dropping an
expired entry it encounters; returns the value (if any) and the updated
table. -/
def cacheGet (tbl : List (String × CacheEntry)) (k : String) (now : Nat) :
    Option String × List (String × CacheEntry) :=
  match lookupA tbl k with
  | none => (none, tbl)
  | some e =>
    if now < e.expiresAt then (some e.value, tbl) else (none, removeA tbl k)

/-- Modelled from the spec (§4.2): `Cache.remove` from `src/util.js`
(not part of the analysed sources) deletes the entry unconditionally. -/
def cacheRemove (tbl : List (String × CacheEntry)) (k : String) :
    List (String × CacheEntry) :=
  removeA tbl k

/-- The shared mutable state the router manipulates: the credential
store (`node-persist` storage), the two limiter tables and the MFA
cache, plus the handle the current session is bound to (if any). -/
structure ServerState where
  storage : List (String × User)
  loginLimiter : List (String × LimiterEntry)
  recoverLimiter : List (String × LimiterEntry)
  mfaCache : List (String × CacheEntry)
  session : Option String
deriving DecidableEq, Repr

/-- The observable outcome of a request: a bare status
(`sendStatus`), a status with a JSON `{error}` body, or the login
success body `{handle, uid}`. -/
inductive Response where
  | status (code : Nat)
  | jsonError (code : Nat) (error : String)
  | loginOk (handle : String) (uid : Nat)
deriving DecidableEq, Repr

/-- Error body "Missing required fields". -/
def msgMissing : String := "Missing required fields"

/-- Error body "Incorrect credentials". -/
def msgIncorrect : String := "Incorrect credentials"

/-- Error body "User is disabled". -/
def msgDisabled : String := "User is disabled"

/-- Error body "User not found". -/
def msgNotFound : String := "User not found"

/-- Error body "Incorrect code". -/
def msgIncorrectCode : String := "Incorrect code"

/-- Error body of a rate-limited login. -/
def msgLoginLimited : String :=
  "Too many attempts. Try again later or recover your password."

/-- Error body of a rate-limited recovery step. -/
def msgRecoverLimited : String :=
  "Too many attempts. Try again later or contact your admin."

/-- A login request: body fields `handle` and `password` (absent
fields modelled as the empty string, matching JavaScript falsiness),
the derived request origin (IP), and whether `request.session` is
available. -/
structure LoginRequest where
  handle : String
  password : String
  origin : String
  sessionAvailable : Bool
deriving DecidableEq, Repr

/-- The `POST /login` handler: validate `handle`, consume the login
limiter for the origin (429 when over budget), look up the user
(generic 403 when absent), reject disabled users (403), compare the
salted password hash when a password is set (generic 403 on mismatch),
fail 500 when the session subsystem is unavailable, and on success
delete the origin's limiter entry, bind the session to the user's
handle and return `{handle, uid}`. -/
def login (st : ServerState) (req : LoginRequest) (now : Nat) :
    Response × ServerState :=
  if req.handle = "" then
    (Response.jsonError 400 msgMissing, st)
  else
    let c := consume st.loginLimiter loginPoints loginDuration req.origin now
    let st1 := { st with loginLimiter := c.1 }
    if c.2 = false then
      (Response.jsonError 429 msgLoginLimited, st1)
    else
      match lookupA st1.storage (toKey req.handle) with
      | none => (Response.jsonError 403 msgIncorrect, st1)
      | some user =>
        if user.enabled = false then
          (Response.jsonError 403 msgDisabled, st1)
        else if user.password ≠ "" ∧
            user.password ≠ getPasswordHash req.password user.salt then
          (Response.jsonError 403 msgIncorrect, st1)
        else if req.sessionAvailable = false then
          (Response.status 500, st1)
        else
          (Response.loginOk user.handle user.uid,
            { st1 with
              loginLimiter := removeA st1.loginLimiter req.origin,
              session := some user.handle })

/-- A recovery step-1 request: body field `handle` and the request
origin. -/
structure Step1Request where
  handle : String
  origin : String
deriving DecidableEq, Repr

/-- The `POST /recover-step1` handler: validate `handle`, consume the
recovery limiter for the origin (429 when over budget), look up the
user (404 when absent), reject disabled users (403), then generate a
code with `crypto.randomInt(1000, 9999)` (parameterised here by the
random draw `rand`), cache it under the user's handle and return 204. -/
def recoverStep1 (st : ServerState) (req : Step1Request) (now rand : Nat) :
    Response × ServerState :=
  if req.handle = "" then
    (Response.jsonError 400 msgMissing, st)
  else
    let c := consume st.recoverLimiter recoverPoints recoverDuration
      req.origin now
    let st1 := { st with recoverLimiter := c.1 }
    if c.2 = false then
      (Response.jsonError 429 msgRecoverLimited, st1)
    else
      match lookupA st1.storage (toKey req.handle) with
      | none => (Response.jsonError 404 msgNotFound, st1)
      | some user =>
        if user.enabled = false then
          (Response.jsonError 403 msgDisabled, st1)
        else
          let mfaCode := toString (randomInt 1000 9999 rand)
          (Response.status 204,
            { st1 with
              mfaCache := cacheSet st1.mfaCache user.handle mfaCode now })

/-- A recovery step-2 request: body fields `handle`, `code` and the
optional `newPassword` (absent fields modelled as the empty string,
matching JavaScript falsiness), and the request origin. -/
structure Step2Request where
  handle : String
  code : String
  newPassword : String
  origin : String
deriving DecidableEq, Repr

/-- The `POST /recover-step2` handler: validate `handle` and `code`,
look up the user (404 when absent), reject disabled users (403), fetch
the cached code for the user's handle; on mismatch (a missing or
expired entry counts as a mismatch) consume the recovery limiter (429
when that trips the budget, otherwise 403 "Incorrect code"); on match
set a fresh salted hash when `newPassword` is provided or clear both
password fields when it is not, write the record back, delete the
origin's recovery-limiter entry, drop the cache entry and return 204.
The fresh salt is parameterised by the random seed `seed`. -/
def recoverStep2 (st : ServerState) (req : Step2Request) (now seed : Nat) :
    Response × ServerState :=
  if req.handle = "" ∨ req.code = "" then
    (Response.jsonError 400 msgMissing, st)
  else
    match lookupA st.storage (toKey req.handle) with
    | none => (Response.jsonError 404 msgNotFound, st)
    | some user =>
      if user.enabled = false then
        (Response.jsonError 403 msgDisabled, st)
      else
        let g := cacheGet st.mfaCache user.handle now
        let st1 := { st with mfaCache := g.2 }
        if g.1 ≠ some req.code then
          let c := consume st1.recoverLimiter recoverPoints recoverDuration
            req.origin now
          let st2 := { st1 with recoverLimiter := c.1 }
          if c.2 = false then
            (Response.jsonError 429 msgRecoverLimited, st2)
          else
            (Response.jsonError 403 msgIncorrectCode, st2)
        else
          let user2 :=
            if req.newPassword ≠ "" then
              { user with
                password := getPasswordHash req.newPassword
                  (getPasswordSalt seed),
                salt := getPasswordSalt seed }
            else
              { user with password := "", salt := "" }
          (Response.status 204,
            { st1 with
              storage := setA st1.storage (toKey user.handle) user2,
              recoverLimiter := removeA st1.recoverLimiter req.origin,
              mfaCache := cacheRemove st1.mfaCache user.handle })

/-- The view model returned by `POST /list` for each enabled user. -/
structure UserViewModel where
  handle : String
  name : String
  created : Option Nat
  avatar : String
  password : Bool
deriving DecidableEq, Repr

/-- Builds the `/list` view model of a user: its avatar is resolved by
the injected `avatarOf` collaborator and `password` is the truthiness
of the stored hash. -/
def toViewModel (avatarOf : String → String) (u : User) : UserViewModel :=
  { handle := u.handle, name := u.name, created := u.created,
    avatar := avatarOf u.handle, password := u.password ≠ "" }

/-- Models `String.startsWith` of the handler's key filter as a
structurally evaluable check that the characters of `p` lead the
characters of `s`. -/
def startsWithStr (s p : String) : Bool :=
  List.isPrefixOf p.data s.data

/-- Inserts a view model into a list sorted by `created ?? 0`
ascending, keeping the sort order. -/
def insertByCreated (x : UserViewModel) :
    List UserViewModel → List UserViewModel
  | [] => [x]
  | y :: ys =>
    if x.created.getD 0 ≤ y.created.getD 0 then x :: y :: ys
    else y :: insertByCreated x ys

/-- Sorts view models by `created ?? 0` ascending (the
`(x.created ?? 0) - (y.created ?? 0)` comparator of the handler),
as a structurally recursive insertion sort. -/
def sortByCreated : List UserViewModel → List UserViewModel
  | [] => []
  | x :: xs => insertByCreated x (sortByCreated xs)

/-- The `POST /list` handler: 204 no-content (modelled as `none`) when
discreet login is enabled; otherwise the view models of the enabled
users stored under the user key prefix, sorted by `created ?? 0`
ascending. -/
def listUsers (discreet : Bool) (storage : List (String × User))
    (avatarOf : String → String) : Option (List UserViewModel) :=
  if discreet then none
  else
    let users := (storage.filter
      (fun p => startsWithStr p.1 keyHead)).map Prod.snd
    let models := (users.filter (fun u => u.enabled)).map
      (toViewModel avatarOf)
    some (sortByCreated models)

/-- A concrete passwordless enabled identity used to exercise the
operations on explicit inputs. -/
def aliceUser : User :=
  { handle := "alice", name := "Alice", password := "", salt := "",
    enabled := true, uid := 7, created := some 1 }

/-- A concrete enabled identity with the password "pw" (salt "s1")
used to exercise the operations on explicit inputs. -/
def bobUser : User :=
  { handle := "bob", name := "Bob", password := getPasswordHash "pw" "s1",
    salt := "s1", enabled := true, uid := 8, created := some 2 }

/-- A concrete disabled identity used to exercise the operations on
explicit inputs. -/
def carolUser : User :=
  { handle := "carol", name := "Carol", password := "", salt := "",
    enabled := false, uid := 9, created := some 3 }

/-- A concrete server state holding the three sample identities, empty
limiter tables, a live recovery code "1234" for alice, and no bound
session. -/
def baseState : ServerState :=
  { storage := [(toKey "alice", aliceUser), (toKey "bob", bobUser),
      (toKey "carol", carolUser)],
    loginLimiter := [], recoverLimiter := [],
    mfaCache := [("alice", { value := "1234", expiresAt := 300000 })],
    session := none }

/-- A concrete avatar resolver for exercising the list operation. -/
def wAvatar : String → String := fun _ => "avatar.png"

/-- Upserting a key makes it found with the new value. -/
theorem lookupA_setA_self {α : Type} (tbl : List (String × α)) (k : String)
    (v : α) : lookupA (setA tbl k v) k = some v := by
  induction tbl with
  | nil => simp [setA, lookupA]
  | cons hd rest ih =>
    obtain ⟨k2, v2⟩ := hd
    by_cases h : k2 = k
    · simp [setA, h, lookupA]
    · simp [setA, h, lookupA, ih]

/-- Deleting a key makes it unfound. -/
theorem lookupA_removeA_self {α : Type} (tbl : List (String × α))
    (k : String) : lookupA (removeA tbl k) k = none := by
  induction tbl with
  | nil => simp [removeA, lookupA]
  | cons hd rest ih =>
    obtain ⟨k2, v2⟩ := hd
    by_cases h : k2 = k
    · simp [removeA, h, ih]
    · simp [removeA, h, lookupA, ih]

/-- After any consumption the consumed key has a limiter entry. -/
theorem consume_lookup_isSome (tbl : List (String × LimiterEntry))
    (budget duration : Nat) (key : String) (now : Nat) :
    (lookupA (consume tbl budget duration key now).1 key).isSome = true := by
  unfold consume
  cases h : lookupA tbl key with
  | none => simp [lookupA_setA_self]
  | some e =>
    by_cases hlt : now < e.expiresAt <;> simp [hlt, lookupA_setA_self]

/-- Claim C1 (counterexample): the generated recovery code is never
9999, because `crypto.randomInt`'s upper bound is exclusive, so the
code space cannot contain the 9000 values 1000–9999. -/
theorem c1_code_range_counterexample :
    (¬ ∃ r : Nat, randomInt 1000 9999 r = 9999) ∧
    ((Finset.range 8999).image (fun r => randomInt 1000 9999 r)).card ≠
      9000 := by
  have himg : (Finset.range 8999).image (fun r => randomInt 1000 9999 r) =
      Finset.Icc 1000 9998 := by
    ext x
    simp only [Finset.mem_image, Finset.mem_range, Finset.mem_Icc, randomInt]
    constructor
    · rintro ⟨r, hr, rfl⟩
      omega
    · intro hx
      exact ⟨x - 1000, by omega, by omega⟩
  constructor
  · rintro ⟨r, h⟩
    unfold randomInt at h
    omega
  · rw [himg, Nat.card_Icc]
    omega

/-- Claim C1 (amended): every invocation of recovery step 1 that
reaches code generation draws its code uniformly from the 8999 values
1000–9998 inclusive (`crypto.randomInt(1000, 9999)` excludes the upper
bound): the code always lies in that range, the map from underlying
draws onto the range is surjective, injective on one period, and the
range has exactly 8999 values. -/
theorem c1_code_range_amended :
    (∀ r : Nat, 1000 ≤ randomInt 1000 9999 r ∧ randomInt 1000 9999 r ≤ 9998) ∧
    ((Finset.range 8999).image (fun r => randomInt 1000 9999 r) =
      Finset.Icc 1000 9998) ∧
    (∀ r1 : Nat, r1 < 8999 → ∀ r2 : Nat, r2 < 8999 →
      randomInt 1000 9999 r1 = randomInt 1000 9999 r2 → r1 = r2) ∧
    (Finset.Icc 1000 9998).card = 8999 := by
  refine ⟨?_, ?_, ?_, ?_⟩
  · intro r
    unfold randomInt
    omega
  · ext x
    simp only [Finset.mem_image, Finset.mem_range, Finset.mem_Icc, randomInt]
    constructor
    · rintro ⟨r, hr, rfl⟩
      omega
    · intro hx
      exact ⟨x - 1000, by omega, by omega⟩
  · intro r1 h1 r2 h2 h
    unfold randomInt at h
    omega
  · rw [Nat.card_Icc]

/-- Consuming a key with no entry starts a fresh window. -/
theorem consume_none (tbl : List (String × LimiterEntry)) (b d k now)
    (he : lookupA tbl k = none) :
    consume tbl b d k now = (setA tbl k ⟨1, now + d⟩, decide (1 ≤ b)) := by
  unfold consume
  rw [he]

/-- Consuming a key with a live entry increments it and succeeds only
within the budget. -/
theorem consume_live (tbl : List (String × LimiterEntry)) (b d k now)
    (e : LimiterEntry) (he : lookupA tbl k = some e)
    (hlt : now < e.expiresAt) :
    consume tbl b d k now =
      (setA tbl k ⟨e.points + 1, e.expiresAt⟩, decide (e.points + 1 ≤ b)) := by
  unfold consume
  rw [he]
  simp [hlt]

/-- Login with a present handle whose limiter consumption fails is
rejected as rate-limited, keeping the incremented limiter state. -/
theorem login_rate_limited (st : ServerState) (req : LoginRequest) (now : Nat)
    (hh : ¬ req.handle = "")
    (hc : (consume st.loginLimiter loginPoints loginDuration
      req.origin now).2 = false) :
    login st req now = (Response.jsonError 429 msgLoginLimited,
      { st with loginLimiter := (consume st.loginLimiter loginPoints
          loginDuration req.origin now).1 }) := by
  simp [login, hh, hc]

/-- Login for an unknown handle (after successful limiter consumption)
fails with the generic incorrect-credentials body. -/
theorem login_user_absent (st : ServerState) (req : LoginRequest) (now : Nat)
    (hh : ¬ req.handle = "")
    (hc : (consume st.loginLimiter loginPoints loginDuration
      req.origin now).2 = true)
    (hu : lookupA st.storage (toKey req.handle) = none) :
    login st req now = (Response.jsonError 403 msgIncorrect,
      { st with loginLimiter := (consume st.loginLimiter loginPoints
          loginDuration req.origin now).1 }) := by
  simp [login, hh, hc, hu]

/-- Login for a disabled user fails with the disabled body. -/
theorem login_disabled (st : ServerState) (req : LoginRequest) (u : User)
    (now : Nat)
    (hh : ¬ req.handle = "")
    (hc : (consume st.loginLimiter loginPoints loginDuration
      req.origin now).2 = true)
    (hu : lookupA st.storage (toKey req.handle) = some u)
    (hen : u.enabled = false) :
    login st req now = (Response.jsonError 403 msgDisabled,
      { st with loginLimiter := (consume st.loginLimiter loginPoints
          loginDuration req.origin now).1 }) := by
  simp [login, hh, hc, hu, hen]

/-- Login for an enabled user with a set password and a mismatching
supplied password fails with the generic incorrect-credentials body. -/
theorem login_wrong_password (st : ServerState) (req : LoginRequest)
    (u : User) (now : Nat)
    (hh : ¬ req.handle = "")
    (hc : (consume st.loginLimiter loginPoints loginDuration
      req.origin now).2 = true)
    (hu : lookupA st.storage (toKey req.handle) = some u)
    (hen : u.enabled = true)
    (hp1 : ¬ u.password = "")
    (hp2 : ¬ u.password = getPasswordHash req.password u.salt) :
    login st req now = (Response.jsonError 403 msgIncorrect,
      { st with loginLimiter := (consume st.loginLimiter loginPoints
          loginDuration req.origin now).1 }) := by
  simp [login, hh, hc, hu, hen, hp1, hp2]

/-- Login that passes every check but finds the session subsystem
unavailable fails with a bare 500 and keeps the consumed limiter
state. -/
theorem login_no_session (st : ServerState) (req : LoginRequest)
    (u : User) (now : Nat)
    (hh : ¬ req.handle = "")
    (hc : (consume st.loginLimiter loginPoints loginDuration
      req.origin now).2 = true)
    (hu : lookupA st.storage (toKey req.handle) = some u)
    (hen : u.enabled = true)
    (hpw : u.password = "" ∨ u.password = getPasswordHash req.password u.salt)
    (hs : req.sessionAvailable = false) :
    login st req now = (Response.status 500,
      { st with loginLimiter := (consume st.loginLimiter loginPoints
          loginDuration req.origin now).1 }) := by
  rcases hpw with hp | hp <;>
    simp [login, hh, hc, hu, hen, hp, hs]

/-- Login through all checks succeeds: the origin's limiter entry is
deleted, the session is bound to the user's handle and the body carries
the user's handle and uid. -/
theorem login_success (st : ServerState) (req : LoginRequest)
    (u : User) (now : Nat)
    (hh : ¬ req.handle = "")
    (hc : (consume st.loginLimiter loginPoints loginDuration
      req.origin now).2 = true)
    (hu : lookupA st.storage (toKey req.handle) = some u)
    (hen : u.enabled = true)
    (hpw : u.password = "" ∨ u.password = getPasswordHash req.password u.salt)
    (hs : req.sessionAvailable = true) :
    login st req now = (Response.loginOk u.handle u.uid,
      { st with
        loginLimiter := removeA (consume st.loginLimiter loginPoints
          loginDuration req.origin now).1 req.origin,
        session := some u.handle }) := by
  rcases hpw with hp | hp <;>
    simp [login, hh, hc, hu, hen, hp, hs]

/-- A wrong-password login against an empty limiter slot charges a
fresh window with one point and fails with the generic body. -/
theorem login_wrong_password_fresh (st : ServerState) (req : LoginRequest)
    (u : User) (now : Nat)
    (hh : ¬ req.handle = "")
    (hu : lookupA st.storage (toKey req.handle) = some u)
    (hen : u.enabled = true)
    (hp1 : ¬ u.password = "")
    (hp2 : ¬ u.password = getPasswordHash req.password u.salt)
    (he : lookupA st.loginLimiter req.origin = none) :
    login st req now = (Response.jsonError 403 msgIncorrect,
      { st with
        loginLimiter :=
          setA st.loginLimiter req.origin ⟨1, now + loginDuration⟩ }) := by
  have hcn := consume_none st.loginLimiter loginPoints loginDuration
    req.origin now he
  have h := login_wrong_password st req u now hh (by rw [hcn]; simp [loginPoints])
    hu hen hp1 hp2
  rw [hcn] at h
  exact h

/-- A wrong-password login against a live limiter entry still within
budget charges one more point and fails with the generic body. -/
theorem login_wrong_password_charged (st : ServerState) (req : LoginRequest)
    (u : User) (now p exp : Nat)
    (hh : ¬ req.handle = "")
    (hu : lookupA st.storage (toKey req.handle) = some u)
    (hen : u.enabled = true)
    (hp1 : ¬ u.password = "")
    (hp2 : ¬ u.password = getPasswordHash req.password u.salt)
    (he : lookupA st.loginLimiter req.origin = some ⟨p, exp⟩)
    (hlt : now < exp)
    (hbud : p + 1 ≤ 5) :
    login st req now = (Response.jsonError 403 msgIncorrect,
      { st with
        loginLimiter :=
          setA st.loginLimiter req.origin ⟨p + 1, exp⟩ }) := by
  have hcl := consume_live st.loginLimiter loginPoints loginDuration
    req.origin now ⟨p, exp⟩ he hlt
  have h := login_wrong_password st req u now hh
    (by rw [hcl]; simp [loginPoints]; omega) hu hen hp1 hp2
  rw [hcl] at h
  exact h

/-- A login against a live limiter entry whose incremented consumption
exceeds the budget is rejected as rate-limited, still charging the
point. -/
theorem login_over_budget_charged (st : ServerState) (req : LoginRequest)
    (now p exp : Nat)
    (hh : ¬ req.handle = "")
    (he : lookupA st.loginLimiter req.origin = some ⟨p, exp⟩)
    (hlt : now < exp)
    (hbud : ¬ (p + 1 ≤ 5)) :
    login st req now = (Response.jsonError 429 msgLoginLimited,
      { st with
        loginLimiter :=
          setA st.loginLimiter req.origin ⟨p + 1, exp⟩ }) := by
  have hcl := consume_live st.loginLimiter loginPoints loginDuration
    req.origin now ⟨p, exp⟩ he hlt
  have h := login_rate_limited st req now hh
    (by rw [hcl]; simp [loginPoints]; omega)
  rw [hcl] at h
  exact h

/-- Claim C2: when every earlier login check passes but the session
subsystem is unavailable, the request ends with a bare 500, the login
limiter table for the origin keeps its freshly consumed entry (it is
not cleared), and the origin still has a limiter entry afterwards. -/
theorem c2_session_unavailable_no_reset (st : ServerState)
    (req : LoginRequest) (u : User) (now : Nat)
    (hh : ¬ req.handle = "")
    (hc : (consume st.loginLimiter loginPoints loginDuration
      req.origin now).2 = true)
    (hu : lookupA st.storage (toKey req.handle) = some u)
    (hen : u.enabled = true)
    (hpw : u.password = "" ∨ u.password = getPasswordHash req.password u.salt)
    (hs : req.sessionAvailable = false) :
    (login st req now).1 = Response.status 500 ∧
    (login st req now).2.loginLimiter =
      (consume st.loginLimiter loginPoints loginDuration req.origin now).1 ∧
    (lookupA (login st req now).2.loginLimiter req.origin).isSome = true := by
  have h := login_no_session st req u now hh hc hu hen hpw hs
  rw [h]
  exact ⟨rfl, rfl, consume_lookup_isSome _ _ _ _ _⟩

/-- Claim C4: with a present handle and a successful limiter
consumption, a nonexistent handle and an existing enabled handle with a
wrong password both yield 403 with the identical generic body
"Incorrect credentials". -/
theorem c4_uniform_incorrect_credentials (st1 st2 : ServerState)
    (req1 req2 : LoginRequest) (u : User) (now1 now2 : Nat)
    (hh1 : ¬ req1.handle = "")
    (hc1 : (consume st1.loginLimiter loginPoints loginDuration
      req1.origin now1).2 = true)
    (hu1 : lookupA st1.storage (toKey req1.handle) = none)
    (hh2 : ¬ req2.handle = "")
    (hc2 : (consume st2.loginLimiter loginPoints loginDuration
      req2.origin now2).2 = true)
    (hu2 : lookupA st2.storage (toKey req2.handle) = some u)
    (hen : u.enabled = true)
    (hp1 : ¬ u.password = "")
    (hp2 : ¬ u.password = getPasswordHash req2.password u.salt) :
    (login st1 req1 now1).1 = Response.jsonError 403 msgIncorrect ∧
    (login st2 req2 now2).1 = Response.jsonError 403 msgIncorrect ∧
    (login st1 req1 now1).1 = (login st2 req2 now2).1 := by
  have h1 := login_user_absent st1 req1 now1 hh1 hc1 hu1
  have h2 := login_wrong_password st2 req2 u now2 hh2 hc2 hu2 hen hp1 hp2
  rw [h1, h2]
  exact ⟨rfl, rfl, rfl⟩

/-- Claim C5: a fully successful login deletes the origin's login
limiter entry, binds the session to the identity's handle and returns
exactly that identity's handle and uid. -/
theorem c5_success_clears_budget_and_binds (st : ServerState)
    (req : LoginRequest) (u : User) (now : Nat)
    (hh : ¬ req.handle = "")
    (hc : (consume st.loginLimiter loginPoints loginDuration
      req.origin now).2 = true)
    (hu : lookupA st.storage (toKey req.handle) = some u)
    (hen : u.enabled = true)
    (hpw : u.password = "" ∨ u.password = getPasswordHash req.password u.salt)
    (hs : req.sessionAvailable = true) :
    (login st req now).1 = Response.loginOk u.handle u.uid ∧
    (login st req now).2.session = some u.handle ∧
    lookupA (login st req now).2.loginLimiter req.origin = none := by
  have h := login_success st req u now hh hc hu hen hpw hs
  rw [h]
  exact ⟨rfl, rfl, lookupA_removeA_self _ _⟩

/-- Claim C6: for an identity with an empty stored password hash, a
login attempt with any supplied password succeeds (the password
comparison is skipped), provided the identity exists and is enabled,
the limiter consumption succeeds and the session is available. -/
theorem c6_passwordless_login (st : ServerState) (h o : String) (now : Nat)
    (u : User)
    (hh : ¬ h = "")
    (hu : lookupA st.storage (toKey h) = some u)
    (hen : u.enabled = true)
    (hp0 : u.password = "") :
    ∀ pw : String,
      (consume st.loginLimiter loginPoints loginDuration o now).2 = true →
      (login st ⟨h, pw, o, true⟩ now).1 = Response.loginOk u.handle u.uid := by
  intro pw hc
  have hsucc := login_success st ⟨h, pw, o, true⟩ u now hh hc hu hen
    (Or.inl hp0) rfl
  rw [hsucc]


/-- Claim C3: from an origin with no login-limiter entry, six login
attempts with a present handle and a wrong password, all within one
60-second window, fail with the generic 403 body five times and are
rejected as rate-limited (429) on the sixth, because the budget is 5
points per window and consumption precedes the credential check. -/
theorem c3_sixth_attempt_rate_limited (st0 : ServerState)
    (req : LoginRequest) (u : User) (t1 t2 t3 t4 t5 t6 : Nat)
    (hh : ¬ req.handle = "")
    (he : lookupA st0.loginLimiter req.origin = none)
    (hu : lookupA st0.storage (toKey req.handle) = some u)
    (hen : u.enabled = true)
    (hp1 : ¬ u.password = "")
    (hp2 : ¬ u.password = getPasswordHash req.password u.salt)
    (h2 : t2 < t1 + loginDuration) (h3 : t3 < t1 + loginDuration)
    (h4 : t4 < t1 + loginDuration) (h5 : t5 < t1 + loginDuration)
    (h6 : t6 < t1 + loginDuration) :
    (login st0 req t1).1 = Response.jsonError 403 msgIncorrect ∧
    (login (login st0 req t1).2 req t2).1 =
      Response.jsonError 403 msgIncorrect ∧
    (login (login (login st0 req t1).2 req t2).2 req t3).1 =
      Response.jsonError 403 msgIncorrect ∧
    (login (login (login (login st0 req t1).2 req t2).2 req t3).2
      req t4).1 = Response.jsonError 403 msgIncorrect ∧
    (login (login (login (login (login st0 req t1).2 req t2).2 req t3).2
      req t4).2 req t5).1 = Response.jsonError 403 msgIncorrect ∧
    (login (login (login (login (login (login st0 req t1).2 req t2).2
      req t3).2 req t4).2 req t5).2 req t6).1 =
      Response.jsonError 429 msgLoginLimited := by
  have e1 := login_wrong_password_fresh st0 req u t1 hh hu hen hp1 hp2 he
  have e2 := login_wrong_password_charged
    { st0 with
      loginLimiter :=
        setA st0.loginLimiter req.origin ⟨1, t1 + loginDuration⟩ }
    req u t2 1 (t1 + loginDuration) hh hu hen hp1 hp2
    (lookupA_setA_self _ _ _) h2 (by omega)
  have e3 := login_wrong_password_charged
    { st0 with
      loginLimiter :=
        setA (setA st0.loginLimiter req.origin ⟨1, t1 + loginDuration⟩) req.origin ⟨2, t1 + loginDuration⟩ }
    req u t3 2 (t1 + loginDuration) hh hu hen hp1 hp2
    (lookupA_setA_self _ _ _) h3 (by omega)
  have e4 := login_wrong_password_charged
    { st0 with
      loginLimiter :=
        setA (setA (setA st0.loginLimiter req.origin ⟨1, t1 + loginDuration⟩) req.origin ⟨2, t1 + loginDuration⟩) req.origin ⟨3, t1 + loginDuration⟩ }
    req u t4 3 (t1 + loginDuration) hh hu hen hp1 hp2
    (lookupA_setA_self _ _ _) h4 (by omega)
  have e5 := login_wrong_password_charged
    { st0 with
      loginLimiter :=
        setA (setA (setA (setA st0.loginLimiter req.origin ⟨1, t1 + loginDuration⟩) req.origin ⟨2, t1 + loginDuration⟩) req.origin ⟨3, t1 + loginDuration⟩) req.origin ⟨4, t1 + loginDuration⟩ }
    req u t5 4 (t1 + loginDuration) hh hu hen hp1 hp2
    (lookupA_setA_self _ _ _) h5 (by omega)
  have e6 := login_over_budget_charged
    { st0 with
      loginLimiter :=
        setA (setA (setA (setA (setA st0.loginLimiter req.origin ⟨1, t1 + loginDuration⟩) req.origin ⟨2, t1 + loginDuration⟩) req.origin ⟨3, t1 + loginDuration⟩) req.origin ⟨4, t1 + loginDuration⟩) req.origin ⟨5, t1 + loginDuration⟩ }
    req t6 5 (t1 + loginDuration) hh (lookupA_setA_self _ _ _) h6 (by omega)
  simp only [e1, e2, e3, e4, e5, e6]
  exact ⟨trivial, trivial, trivial, trivial, trivial, trivial⟩

/-- The modelled password hash is never the empty string. -/
theorem getPasswordHash_ne_empty (p s : String) :
    ¬ getPasswordHash p s = "" := by
  intro h
  have hlen := congrArg String.length h
  simp only [getPasswordHash, String.length_append] at hlen
  rw [show ("hash:" : String).length = 5 from rfl,
    show (":" : String).length = 1 from rfl,
    show ("" : String).length = 0 from rfl] at hlen
  omega

/-- The modelled password salt is never the empty string. -/
theorem getPasswordSalt_ne_empty (seed : Nat) :
    ¬ getPasswordSalt seed = "" := by
  intro h
  have hlen := congrArg String.length h
  rw [getPasswordSalt, String.length_append] at hlen
  rw [show ("salt:" : String).length = 5 from rfl,
    show ("" : String).length = 0 from rfl] at hlen
  omega

/-- Recovery step 2 for an unknown handle fails 404 and leaves the
whole server state untouched. -/
theorem step2_not_found (st : ServerState) (req : Step2Request)
    (now seed : Nat)
    (hh : ¬ req.handle = "")
    (hc : ¬ req.code = "")
    (hu : lookupA st.storage (toKey req.handle) = none) :
    recoverStep2 st req now seed = (Response.jsonError 404 msgNotFound, st) := by
  simp [recoverStep2, hh, hc, hu]

/-- Recovery step 2 for a disabled user fails 403 and leaves the whole
server state untouched. -/
theorem step2_disabled (st : ServerState) (req : Step2Request) (u : User)
    (now seed : Nat)
    (hh : ¬ req.handle = "")
    (hc : ¬ req.code = "")
    (hu : lookupA st.storage (toKey req.handle) = some u)
    (hen : u.enabled = false) :
    recoverStep2 st req now seed = (Response.jsonError 403 msgDisabled, st) := by
  simp [recoverStep2, hh, hc, hu, hen]

/-- Recovery step 2 with a non-matching code (a missing or expired
cache entry counts as non-matching) charges the recovery limiter for
the origin and fails 403 "Incorrect code", or 429 when that very
consumption trips the budget. -/
theorem step2_wrong_code (st : ServerState) (req : Step2Request) (u : User)
    (now seed : Nat)
    (hh : ¬ req.handle = "")
    (hc : ¬ req.code = "")
    (hu : lookupA st.storage (toKey req.handle) = some u)
    (hen : u.enabled = true)
    (hm : ¬ (cacheGet st.mfaCache u.handle now).1 = some req.code) :
    recoverStep2 st req now seed =
      ((if (consume st.recoverLimiter recoverPoints recoverDuration
          req.origin now).2 = false then
          Response.jsonError 429 msgRecoverLimited
        else Response.jsonError 403 msgIncorrectCode),
        { st with
          mfaCache := (cacheGet st.mfaCache u.handle now).2,
          recoverLimiter := (consume st.recoverLimiter recoverPoints
            recoverDuration req.origin now).1 }) := by
  simp only [recoverStep2, hh, hc, hu, hen]
  simp [hm]
  split <;> rfl

/-- Recovery step 2 with a matching code succeeds 204: the record is
rewritten (fresh salted hash when a new password is supplied, both
fields cleared otherwise), the origin's recovery-limiter entry is
deleted and the cache entry is dropped. -/
theorem step2_success (st : ServerState) (req : Step2Request) (u : User)
    (now seed : Nat)
    (hh : ¬ req.handle = "")
    (hc : ¬ req.code = "")
    (hu : lookupA st.storage (toKey req.handle) = some u)
    (hen : u.enabled = true)
    (hm : (cacheGet st.mfaCache u.handle now).1 = some req.code) :
    recoverStep2 st req now seed = (Response.status 204,
      { st with
        storage := setA st.storage (toKey u.handle)
          (if ¬ req.newPassword = "" then
            { u with
              password := getPasswordHash req.newPassword
                (getPasswordSalt seed),
              salt := getPasswordSalt seed }
          else { u with password := "", salt := "" }),
        mfaCache := cacheRemove (cacheGet st.mfaCache u.handle now).2
          u.handle,
        recoverLimiter := removeA st.recoverLimiter req.origin }) := by
  simp only [recoverStep2, hh, hc, hu, hen]
  simp [hm]

/-- Claim C7: recovery step 2 with present handle and code for an
existing enabled identity whose supplied code does not match the live
cached code charges the recovery limiter one point for the origin and
fails 403 "Incorrect code"; when that very consumption exceeds the
budget the request is instead rejected 429 as rate-limited — in both
cases the limiter table becomes the post-consumption table. -/
theorem c7_wrong_code_charges_limiter (st : ServerState)
    (req : Step2Request) (u : User) (now seed : Nat)
    (hh : ¬ req.handle = "")
    (hc : ¬ req.code = "")
    (hu : lookupA st.storage (toKey req.handle) = some u)
    (hen : u.enabled = true)
    (hm : ¬ (cacheGet st.mfaCache u.handle now).1 = some req.code) :
    (recoverStep2 st req now seed).2.recoverLimiter =
      (consume st.recoverLimiter recoverPoints recoverDuration
        req.origin now).1 ∧
    ((consume st.recoverLimiter recoverPoints recoverDuration
        req.origin now).2 = true →
      (recoverStep2 st req now seed).1 =
        Response.jsonError 403 msgIncorrectCode) ∧
    ((consume st.recoverLimiter recoverPoints recoverDuration
        req.origin now).2 = false →
      (recoverStep2 st req now seed).1 =
        Response.jsonError 429 msgRecoverLimited) := by
  have h := step2_wrong_code st req u now seed hh hc hu hen hm
  rw [h]
  refine ⟨?_, ?_, ?_⟩
  · split <;> rfl
  · intro hok
    rw [if_neg]
    simp [hok]
  · intro hko
    rw [if_pos hko]

/-- Claim C8: a successful recovery step 2 writes a record satisfying
the invariant `password` non-empty ⇔ `salt` non-empty: both set (fresh
salt, salted hash of the new password) when `newPassword` is supplied,
both cleared to the empty string when it is not. -/
theorem c8_rewrite_preserves_invariant (st : ServerState)
    (req : Step2Request) (u : User) (now seed : Nat)
    (hh : ¬ req.handle = "")
    (hc : ¬ req.code = "")
    (hu : lookupA st.storage (toKey req.handle) = some u)
    (hen : u.enabled = true)
    (hm : (cacheGet st.mfaCache u.handle now).1 = some req.code) :
    (recoverStep2 st req now seed).1 = Response.status 204 ∧
    ∃ u2 : User,
      lookupA (recoverStep2 st req now seed).2.storage (toKey u.handle) =
        some u2 ∧
      (¬ u2.password = "" ↔ ¬ u2.salt = "") ∧
      (¬ req.newPassword = "" →
        u2.password = getPasswordHash req.newPassword (getPasswordSalt seed) ∧
        u2.salt = getPasswordSalt seed) ∧
      (req.newPassword = "" → u2.password = "" ∧ u2.salt = "") := by
  have h := step2_success st req u now seed hh hc hu hen hm
  rw [h]
  refine ⟨rfl, ?_⟩
  by_cases hnp : req.newPassword = ""
  · refine ⟨{ u with password := "", salt := "" }, ?_, ?_, ?_, ?_⟩
    · rw [if_neg (by simp [hnp])]
      exact lookupA_setA_self _ _ _
    · simp
    · intro hx
      exact absurd hnp hx
    · intro _
      exact ⟨rfl, rfl⟩
  · refine ⟨{ u with
        password := getPasswordHash req.newPassword (getPasswordSalt seed),
        salt := getPasswordSalt seed }, ?_, ?_, ?_, ?_⟩
    · rw [if_pos hnp]
      exact lookupA_setA_self _ _ _
    · simp only []
      constructor
      · intro _
        exact getPasswordSalt_ne_empty seed
      · intro _
        exact getPasswordHash_ne_empty req.newPassword (getPasswordSalt seed)
    · intro _
      exact ⟨rfl, rfl⟩
    · intro hx
      exact absurd hx hnp

/-- Claim C10: recovery step 2 with present handle and code aimed at an
absent identity fails 404, and at a disabled identity fails 403, in
both cases returning the server state completely unchanged: no limiter
consumption or deletion, no cache mutation, no storage write. -/
theorem c10_early_failures_frame (st : ServerState) (req : Step2Request)
    (now seed : Nat)
    (hh : ¬ req.handle = "")
    (hc : ¬ req.code = "") :
    (lookupA st.storage (toKey req.handle) = none →
      recoverStep2 st req now seed =
        (Response.jsonError 404 msgNotFound, st)) ∧
    (∀ u : User, lookupA st.storage (toKey req.handle) = some u →
      u.enabled = false →
      recoverStep2 st req now seed =
        (Response.jsonError 403 msgDisabled, st)) := by
  constructor
  · intro hu
    exact step2_not_found st req now seed hh hc hu
  · intro u hu hen
    exact step2_disabled st req u now seed hh hc hu hen

/-- Insertion keeps exactly the old elements plus the new one. -/
theorem mem_insertByCreated (a x : UserViewModel)
    (l : List UserViewModel) :
    a ∈ insertByCreated x l ↔ a = x ∨ a ∈ l := by
  induction l with
  | nil => simp [insertByCreated]
  | cons y ys ih =>
    unfold insertByCreated
    split
    · simp
    · simp [ih]
      tauto

/-- Sorting keeps exactly the same elements. -/
theorem mem_sortByCreated (a : UserViewModel) (l : List UserViewModel) :
    a ∈ sortByCreated l ↔ a ∈ l := by
  induction l with
  | nil => simp [sortByCreated]
  | cons x xs ih =>
    unfold sortByCreated
    rw [mem_insertByCreated]
    simp [ih]

/-- Claim C9: with discreet mode off, every view model returned by the
list operation comes from a stored, user-prefixed record whose
`enabled` flag is true — disabled identities never appear in the
returned list. -/
theorem c9_list_only_enabled (storage : List (String × User))
    (avatarOf : String → String) (vms : List UserViewModel)
    (vm : UserViewModel)
    (hl : listUsers false storage avatarOf = some vms)
    (hm : vm ∈ vms) :
    ∃ k : String, ∃ u : User, (k, u) ∈ storage ∧
      startsWithStr k keyHead = true ∧ u.enabled = true ∧
      vm = toViewModel avatarOf u := by
  unfold listUsers at hl
  simp only [Bool.false_eq_true, if_false, Option.some.injEq] at hl
  subst hl
  rw [mem_sortByCreated] at hm
  rw [List.mem_map] at hm
  obtain ⟨u, hu, rfl⟩ := hm
  rw [List.mem_filter] at hu
  obtain ⟨hu1, hu2⟩ := hu
  rw [List.mem_map] at hu1
  obtain ⟨p, hp, rfl⟩ := hu1
  rw [List.mem_filter] at hp
  obtain ⟨hp1, hp2⟩ := hp
  exact ⟨p.1, p.2, hp1, hp2, hu2, rfl⟩

/-- Witness for claim C2: logging in as bob with the correct password
from origin "ip" at time 0 with the session subsystem unavailable
returns 500, keeps the consumed limiter table and leaves an entry for
"ip". -/
theorem c2_session_unavailable_no_reset_witness :
    (login baseState ⟨"bob", "pw", "ip", false⟩ 0).1 = Response.status 500 ∧
    (login baseState ⟨"bob", "pw", "ip", false⟩ 0).2.loginLimiter =
      (consume baseState.loginLimiter loginPoints loginDuration "ip" 0).1 ∧
    (lookupA (login baseState ⟨"bob", "pw", "ip", false⟩ 0).2.loginLimiter
      "ip").isSome = true :=
  c2_session_unavailable_no_reset baseState ⟨"bob", "pw", "ip", false⟩
    bobUser 0 (by decide) (by decide) (by decide) (by decide)
    (Or.inr rfl) rfl

/-- Witness for claim C3: six wrong-password logins as bob from origin
"ip" at times 0..5 (all within one 60 s window) return the generic 403
body five times and 429 on the sixth. -/
theorem c3_sixth_attempt_rate_limited_witness :
    (login baseState ⟨"bob", "nope", "ip", true⟩ 0).1 =
      Response.jsonError 403 msgIncorrect ∧
    (login (login baseState ⟨"bob", "nope", "ip", true⟩ 0).2 ⟨"bob", "nope", "ip", true⟩ 1).1 =
      Response.jsonError 403 msgIncorrect ∧
    (login (login (login baseState ⟨"bob", "nope", "ip", true⟩ 0).2 ⟨"bob", "nope", "ip", true⟩ 1).2 ⟨"bob", "nope", "ip", true⟩ 2).1 =
      Response.jsonError 403 msgIncorrect ∧
    (login (login (login (login baseState ⟨"bob", "nope", "ip", true⟩ 0).2 ⟨"bob", "nope", "ip", true⟩ 1).2 ⟨"bob", "nope", "ip", true⟩ 2).2 ⟨"bob", "nope", "ip", true⟩ 3).1 =
      Response.jsonError 403 msgIncorrect ∧
    (login (login (login (login (login baseState ⟨"bob", "nope", "ip", true⟩ 0).2 ⟨"bob", "nope", "ip", true⟩ 1).2 ⟨"bob", "nope", "ip", true⟩ 2).2 ⟨"bob", "nope", "ip", true⟩ 3).2 ⟨"bob", "nope", "ip", true⟩ 4).1 =
      Response.jsonError 403 msgIncorrect ∧
    (login (login (login (login (login (login baseState ⟨"bob", "nope", "ip", true⟩ 0).2 ⟨"bob", "nope", "ip", true⟩ 1).2 ⟨"bob", "nope", "ip", true⟩ 2).2 ⟨"bob", "nope", "ip", true⟩ 3).2 ⟨"bob", "nope", "ip", true⟩ 4).2 ⟨"bob", "nope", "ip", true⟩ 5).1 =
      Response.jsonError 429 msgLoginLimited :=
  c3_sixth_attempt_rate_limited baseState ⟨"bob", "nope", "ip", true⟩ bobUser
    0 1 2 3 4 5 (by decide) rfl (by decide) rfl (by decide) (by decide)
    (by decide) (by decide) (by decide) (by decide) (by decide)

/-- Witness for claim C4: a login for the unknown handle "nobody" and
a wrong-password login for the existing enabled handle "bob" both
return 403 with the identical body "Incorrect credentials". -/
theorem c4_uniform_incorrect_credentials_witness :
    (login baseState ⟨"nobody", "x", "ip", true⟩ 0).1 =
      Response.jsonError 403 msgIncorrect ∧
    (login baseState ⟨"bob", "wrong", "ip2", true⟩ 1).1 =
      Response.jsonError 403 msgIncorrect ∧
    (login baseState ⟨"nobody", "x", "ip", true⟩ 0).1 =
      (login baseState ⟨"bob", "wrong", "ip2", true⟩ 1).1 :=
  c4_uniform_incorrect_credentials baseState baseState
    ⟨"nobody", "x", "ip", true⟩ ⟨"bob", "wrong", "ip2", true⟩ bobUser 0 1
    (by decide) (by decide) (by decide) (by decide) (by decide) (by decide)
    rfl (by decide) (by decide)

/-- Witness for claim C5: logging in as bob with the correct password
succeeds with body `{bob, 8}`, binds the session to "bob" and deletes
the limiter entry for origin "ip". -/
theorem c5_success_clears_budget_and_binds_witness :
    (login baseState ⟨"bob", "pw", "ip", true⟩ 0).1 =
      Response.loginOk "bob" 8 ∧
    (login baseState ⟨"bob", "pw", "ip", true⟩ 0).2.session = some "bob" ∧
    lookupA (login baseState ⟨"bob", "pw", "ip", true⟩ 0).2.loginLimiter
      "ip" = none :=
  c5_success_clears_budget_and_binds baseState ⟨"bob", "pw", "ip", true⟩
    bobUser 0 (by decide) (by decide) (by decide) rfl (Or.inr rfl) rfl

/-- Witness for claim C6: alice stores no password, so a login
supplying the arbitrary password "whatever" succeeds. -/
theorem c6_passwordless_login_witness :
    (login baseState ⟨"alice", "whatever", "ip", true⟩ 0).1 =
      Response.loginOk "alice" 7 :=
  c6_passwordless_login baseState "alice" "ip" 0 aliceUser (by decide)
    (by decide) rfl rfl "whatever" (by decide)

/-- Witness for claim C7: recovery step 2 for bob (who has no cached
code) with guess "1234" from origin "ip" charges the recovery limiter
and, the fresh consumption being within budget, fails 403
"Incorrect code". -/
theorem c7_wrong_code_charges_limiter_witness :
    (recoverStep2 baseState ⟨"bob", "1234", "", "ip"⟩ 0 0).2.recoverLimiter =
      (consume baseState.recoverLimiter recoverPoints recoverDuration
        "ip" 0).1 ∧
    ((consume baseState.recoverLimiter recoverPoints recoverDuration
        "ip" 0).2 = true →
      (recoverStep2 baseState ⟨"bob", "1234", "", "ip"⟩ 0 0).1 =
        Response.jsonError 403 msgIncorrectCode) ∧
    ((consume baseState.recoverLimiter recoverPoints recoverDuration
        "ip" 0).2 = false →
      (recoverStep2 baseState ⟨"bob", "1234", "", "ip"⟩ 0 0).1 =
        Response.jsonError 429 msgRecoverLimited) :=
  c7_wrong_code_charges_limiter baseState ⟨"bob", "1234", "", "ip"⟩
    bobUser 0 0 (by decide) (by decide) (by decide) rfl (by decide)

/-- Witness for claim C8: recovery step 2 for alice with her live
cached code "1234" and new password "secret" (seed 42) succeeds and
writes a record with both password and salt non-empty. -/
theorem c8_rewrite_preserves_invariant_witness :
    (recoverStep2 baseState ⟨"alice", "1234", "secret", "ip"⟩ 0 42).1 =
      Response.status 204 ∧
    ∃ u2 : User,
      lookupA (recoverStep2 baseState ⟨"alice", "1234", "secret", "ip"⟩
        0 42).2.storage (toKey "alice") = some u2 ∧
      (¬ u2.password = "" ↔ ¬ u2.salt = "") ∧
      (¬ ("secret" : String) = "" →
        u2.password = getPasswordHash "secret" (getPasswordSalt 42) ∧
        u2.salt = getPasswordSalt 42) ∧
      (("secret" : String) = "" → u2.password = "" ∧ u2.salt = "") :=
  c8_rewrite_preserves_invariant baseState ⟨"alice", "1234", "secret", "ip"⟩
    aliceUser 0 42 (by decide) (by decide) (by decide) rfl (by decide)

/-- Witness for claim C9: listing with discreet mode off over the
sample store returns view models, and the one for alice traces back to
an enabled stored record. -/
theorem c9_list_only_enabled_witness :
    ∃ k : String, ∃ u : User, (k, u) ∈ baseState.storage ∧
      startsWithStr k keyHead = true ∧ u.enabled = true ∧
      toViewModel wAvatar aliceUser = toViewModel wAvatar u :=
  c9_list_only_enabled baseState.storage wAvatar
    [toViewModel wAvatar aliceUser, toViewModel wAvatar bobUser]
    (toViewModel wAvatar aliceUser) rfl (by simp)

/-- Witness for claim C10: recovery step 2 for the absent handle
"nobody" and for the disabled handle "carol" each leave the sample
state untouched, with 404 and 403 respectively. -/
theorem c10_early_failures_frame_witness :
    (lookupA baseState.storage (toKey "nobody") = none →
      recoverStep2 baseState ⟨"nobody", "1234", "", "ip"⟩ 0 0 =
        (Response.jsonError 404 msgNotFound, baseState)) ∧
    (∀ u : User, lookupA baseState.storage (toKey "nobody") = some u →
      u.enabled = false →
      recoverStep2 baseState ⟨"nobody", "1234", "", "ip"⟩ 0 0 =
        (Response.jsonError 403 msgDisabled, baseState)) :=
  c10_early_failures_frame baseState ⟨"nobody", "1234", "", "ip"⟩ 0 0
    (by decide) (by decide)

/-- Witness for claim C1 (amended): the concrete draw 4500 produces a
code within 1000–9998. -/
theorem c1_code_range_amended_witness :
    1000 ≤ randomInt 1000 9999 4500 ∧ randomInt 1000 9999 4500 ≤ 9998 :=
  c1_code_range_amended.1 4500
